import Mathlib

/-!
Verification of the energy-community BESS repository.

Shallow embedding of `src/bess_model.py` (the battery state machine) and
`src/run_simulation.py` (the hourly dispatch loop), with machine-checked
statements of the specification's claims about them.  Python floats are
modelled by exact rationals; a Python exception is modelled by an
`Except` value carrying the state at the moment the exception is raised
(Python's `raise` leaves the object in whatever state it had reached).
-/

attribute [local semireducible] Rat.add Rat.mul Rat.sub Rat.inv

/-- Runtime errors the embedded Python code can raise.  `valueError`
models the explicit `raise ValueError` checks (the spec's `InvalidInput`
and `LengthMismatch`), `typeError` models numpy's error on assigning a
4-tuple into a float array, and `attributeError` models access to the
misspelled attribute `batter_power`. -/
inductive PyErr where
  | valueError
  | typeError
  | attributeError
deriving Repr, DecidableEq

/-- The mutable state of `BatteryEnergyStorageSystem`
(`src/bess_model.py`, `__init__`). -/
structure Battery where
  battery_capacity : ℚ
  battery_power : ℚ
  charging_efficiency : ℚ
  discharging_efficiency : ℚ
  min_soc : ℚ
  max_soc : ℚ
  existing_energy : ℚ
  soc : ℚ
  total_charged : ℚ
  total_discharged : ℚ
  total_losses : ℚ
deriving Repr, DecidableEq

/-- `BatteryEnergyStorageSystem.__init__`: stores the parameters,
sets `existing_energy = initial_soc * battery_capacity`, `soc =
initial_soc` and zeroes the three cumulative counters.  The constructor
performs no validation of any parameter. -/
def mkBattery (battery_capacity battery_power initial_soc charging_efficiency
    discharging_efficiency min_soc max_soc : ℚ) : Battery :=
  { battery_capacity := battery_capacity
    battery_power := battery_power
    charging_efficiency := charging_efficiency
    discharging_efficiency := discharging_efficiency
    min_soc := min_soc
    max_soc := max_soc
    existing_energy := initial_soc * battery_capacity
    soc := initial_soc
    total_charged := 0
    total_discharged := 0
    total_losses := 0 }

/-- A battery built with the Python default arguments
(`battery_capacity=4000, battery_power=2000, initial_soc=0.5,
charging_efficiency=0.95, discharging_efficiency=0.95, min_soc=0.1,
max_soc=1`). -/
def defaultBattery : Battery :=
  mkBattery 4000 2000 (1/2) (19/20) (19/20) (1/10) 1

/-- `BatteryEnergyStorageSystem.charge`.  Returns the Python return
tuple `(actual_charging_power, actual_charged_energy, existing_energy,
soc)` (or the raised error) together with the post-call object state. -/
def Battery.charge (b : Battery) (charging_power charging_time : ℚ) :
    Except PyErr (ℚ × ℚ × ℚ × ℚ) × Battery :=
  if charging_power < 0 then (.error .valueError, b)
  else
    let actual_charging_power := min charging_power b.battery_power
    let charged_energy := actual_charging_power * charging_time
    let actual_charged_energy := b.charging_efficiency * charged_energy
    let charging_availability := b.max_soc * b.battery_capacity - b.existing_energy
    let actual_charged_energy :=
      if actual_charged_energy > charging_availability then charging_availability
      else actual_charged_energy
    let existing_energy := b.existing_energy + actual_charged_energy
    let b' := { b with
      existing_energy := existing_energy
      soc := existing_energy / b.battery_capacity
      total_charged := b.total_charged + actual_charged_energy
      total_losses := b.total_losses + charged_energy - actual_charged_energy }
    (.ok (actual_charging_power, actual_charged_energy, b'.existing_energy, b'.soc), b')

/-- `BatteryEnergyStorageSystem.discharge`. -/
def Battery.discharge (b : Battery) (discharging_power discharging_time : ℚ) :
    Except PyErr (ℚ × ℚ × ℚ × ℚ) × Battery :=
  if discharging_power < 0 then (.error .valueError, b)
  else
    let actual_discharging_power := min discharging_power b.battery_power
    let actual_discharged_energy :=
      actual_discharging_power * discharging_time * b.discharging_efficiency
    let discharging_availability := b.existing_energy - b.min_soc * b.battery_capacity
    let actual_discharged_energy :=
      if actual_discharged_energy > discharging_availability then discharging_availability
      else actual_discharged_energy
    let existing_energy := b.existing_energy - actual_discharged_energy
    let b' := { b with
      existing_energy := existing_energy
      soc := existing_energy / b.battery_capacity
      total_discharged := b.total_discharged + actual_discharged_energy
      total_losses := b.total_losses +
        actual_discharging_power * discharging_time * (1 - b.discharging_efficiency) }
    (.ok (actual_discharging_power, actual_discharged_energy, b'.existing_energy, b'.soc), b')

/-- Insert into an ascending list (helper for the sort used by
`percentile`). -/
def insertAsc (x : ℚ) : List ℚ → List ℚ
  | [] => [x]
  | y :: ys => if x ≤ y then x :: y :: ys else y :: insertAsc x ys

/-- Ascending insertion sort over rationals. -/
def sortAsc : List ℚ → List ℚ
  | [] => []
  | x :: xs => insertAsc x (sortAsc xs)

/-- Floor of a nonnegative rational as a natural number (the index
computation inside the percentile interpolation). -/
def ratFloorNat (x : ℚ) : Nat := (Int.fdiv x.num x.den).toNat

/-- `np.percentile(xs, q)` with the default linear interpolation:
with the data sorted ascending and `pos = q*(n-1)/100`, interpolate
linearly between the entries at `⌊pos⌋` and `⌊pos⌋+1`. -/
def percentile (xs : List ℚ) (q : ℚ) : ℚ :=
  let s := sortAsc xs
  let n := s.length
  let pos := q * ((n : ℚ) - 1) / 100
  let i := ratFloorNat pos
  let lo := s.getD i 0
  let hi := s.getD (i + 1) lo
  lo + (pos - (i : ℚ)) * (hi - lo)

/-- The two control strategies `run_simulation` dispatches on
(the strings `'simple'` and `'price arbitrage'`). -/
inductive Strategy where
  | simple
  | priceArbitrage
deriving Repr, DecidableEq

/-- One row of the result table assembled by `run_simulation`. -/
structure HourRec where
  pv_generation : ℚ
  building_demand : ℚ
  electricity_prices : ℚ
  energy_movement : ℚ
  battery_soc : ℚ
  battery_energy : ℚ
  grid_power : ℚ
  electricity_cost : ℚ
deriving Repr, DecidableEq

/-- The strategy branch of the loop body of `run_simulation` (lines
54-148): decides and applies the battery operation for one hour and
yields `(energy_movement, battery_soc, battery_energy, grid_power)`
together with the post-hour battery.  Faithfully modelled Python
failure points:
* in the low-price and high-price arbitrage branches the code assigns
  the whole 4-tuple returned by `charge`/`discharge` (the `[1]` index
  is missing) into the float array `energy_movement`, which raises at
  run time — modelled as `typeError` after the battery mutation;
* `battery.batter_power` (misspelled) raises — modelled as
  `attributeError`;
* the low-price branch always aborts this way, so control never
  reaches the following `if/else`; the `else` (medium-price) clause of
  that second `if` is therefore reachable exactly when
  `¬ price ≤ low ∧ ¬ price > high`, which the nested conditionals
  below reproduce. -/
def simBranch (strategy : Strategy) (pricesAll : List ℚ) (b : Battery)
    (current_net_load current_price : ℚ) :
    Except PyErr ((ℚ × ℚ × ℚ × ℚ) × Battery) :=
  match strategy with
  | .simple =>
    if current_net_load > 0 then
      match b.charge current_net_load 1 with
      | (.ok out, b') =>
        let actual_charged_energy := out.2.1
        let remaining_PV := current_net_load - actual_charged_energy
        .ok ((actual_charged_energy, b'.soc, b'.existing_energy, remaining_PV), b')
      | (.error e, _) => .error e
    else
      match b.discharge (- current_net_load) 1 with
      | (.ok out, b') =>
        let actual_discharged_energy := out.2.1
        let remaining_dificit := current_net_load + actual_discharged_energy
        .ok ((- actual_discharged_energy, b'.soc, b'.existing_energy, remaining_dificit), b')
      | (.error e, _) => .error e
  | .priceArbitrage =>
    let price_threshold_low := percentile pricesAll 25
    let price_threshold_high := percentile pricesAll 75
    if current_price ≤ price_threshold_low then
      let charging_power :=
        if current_net_load > 0 then current_net_load else b.battery_power
      match b.charge charging_power 1 with
      | (.ok _, _) => .error .typeError
      | (.error e, _) => .error e
    else if current_price > price_threshold_high then
      if current_net_load < 0 then
        match b.discharge (- current_net_load) 1 with
        | (.ok _, _) => .error .typeError
        | (.error e, _) => .error e
      else if b.soc > 1/10 then .error .attributeError
      else
        match b.discharge 0 1 with
        | (.ok _, _) => .error .typeError
        | (.error e, _) => .error e
    else
      if current_net_load > 0 then
        match b.charge current_net_load 1 with
        | (.ok out, b') =>
          let actual_charged_energy := out.2.1
          let remaining_PV := current_net_load - actual_charged_energy
          .ok ((actual_charged_energy, b'.soc, b'.existing_energy, remaining_PV), b')
        | (.error e, _) => .error e
      else
        match b.discharge current_net_load 1 with
        | (.ok out, b') =>
          let actual_discharged_energy := out.2.1
          let remaining_dificit := current_net_load + actual_discharged_energy
          .ok ((- actual_discharged_energy, b'.soc, b'.existing_energy, remaining_dificit), b')
        | (.error e, _) => .error e

/-- One full iteration of the hourly loop: the strategy branch followed
by `electricity_cost[hour] = grid_power[hour] * current_price`
(line 155) and the assembly of the hour's result row. -/
def simStep (strategy : Strategy) (pricesAll : List ℚ) (b : Battery)
    (pv demand price : ℚ) : Except PyErr (HourRec × Battery) :=
  let current_net_load := pv - demand
  match simBranch strategy pricesAll b current_net_load price with
  | .error e => .error e
  | .ok (vals, b') =>
    .ok ({ pv_generation := pv
           building_demand := demand
           electricity_prices := price
           energy_movement := vals.1
           battery_soc := vals.2.1
           battery_energy := vals.2.2.1
           grid_power := vals.2.2.2
           electricity_cost := vals.2.2.2 * price }, b')

/-- The hourly loop of `run_simulation`, threading the battery state. -/
def runSimAux (strategy : Strategy) (pricesAll : List ℚ) :
    Battery → List ℚ → List ℚ → List ℚ → Except PyErr (List HourRec)
  | b, pv :: pvs, d :: ds, p :: ps =>
    match simStep strategy pricesAll b pv d p with
    | .error e => .error e
    | .ok (r, b') =>
      match runSimAux strategy pricesAll b' pvs ds ps with
      | .error e => .error e
      | .ok rs => .ok (r :: rs)
  | _, _, _, _ => .ok []

/-- `run_simulation`: checks the three input series have equal length
(raising `ValueError` otherwise) and runs the hourly loop. -/
def run_simulation (b : Battery) (pv demand prices : List ℚ)
    (strategy : Strategy) : Except PyErr (List HourRec) :=
  if pv.length = demand.length ∧ demand.length = prices.length then
    runSimAux strategy prices b pv demand prices
  else .error .valueError

/-- The battery-parameter bounds stated by the specification's data
model (§3): positive capacity and power limit, efficiencies in `(0,1]`,
`0 ≤ min_soc < max_soc ≤ 1`. -/
def ValidConfig (b : Battery) : Prop :=
  0 < b.battery_capacity ∧ 0 < b.battery_power ∧
  0 < b.charging_efficiency ∧ b.charging_efficiency ≤ 1 ∧
  0 < b.discharging_efficiency ∧ b.discharging_efficiency ≤ 1 ∧
  0 ≤ b.min_soc ∧ b.min_soc < b.max_soc ∧ b.max_soc ≤ 1

instance (b : Battery) : Decidable (ValidConfig b) :=
  inferInstanceAs (Decidable (0 < b.battery_capacity ∧ 0 < b.battery_power ∧
    0 < b.charging_efficiency ∧ b.charging_efficiency ≤ 1 ∧
    0 < b.discharging_efficiency ∧ b.discharging_efficiency ≤ 1 ∧
    0 ≤ b.min_soc ∧ b.min_soc < b.max_soc ∧ b.max_soc ≤ 1))

/-- The usable-band invariant on the stored energy:
`min_soc*capacity ≤ existing_energy ≤ max_soc*capacity`. -/
def InBand (b : Battery) : Prop :=
  b.min_soc * b.battery_capacity ≤ b.existing_energy ∧
  b.existing_energy ≤ b.max_soc * b.battery_capacity

instance (b : Battery) : Decidable (InBand b) :=
  inferInstanceAs (Decidable (b.min_soc * b.battery_capacity ≤ b.existing_energy ∧
    b.existing_energy ≤ b.max_soc * b.battery_capacity))

/-- A charge or discharge request (power, duration). -/
inductive Op where
  | charge (p t : ℚ)
  | discharge (p t : ℚ)
deriving Repr, DecidableEq

/-- A request is valid when its power and duration are nonnegative. -/
def Op.valid : Op → Prop
  | .charge p t => 0 ≤ p ∧ 0 ≤ t
  | .discharge p t => 0 ≤ p ∧ 0 ≤ t

instance (op : Op) : Decidable op.valid := by
  cases op with
  | charge p t => exact inferInstanceAs (Decidable (0 ≤ p ∧ 0 ≤ t))
  | discharge p t => exact inferInstanceAs (Decidable (0 ≤ p ∧ 0 ≤ t))

/-- Apply one request to the battery and keep the post-call state
(on a raised error the object keeps its prior state). -/
def applyOp (b : Battery) : Op → Battery
  | .charge p t => (b.charge p t).2
  | .discharge p t => (b.discharge p t).2

/-- The energy actually added to storage by a successful `charge` call
(the second component of the Python return tuple). -/
def chargeApplied (b : Battery) (p t : ℚ) : ℚ :=
  match b.charge p t with
  | (.ok out, _) => out.2.1
  | (.error _, _) => 0

/-- Closed form of the energy a nonnegative `charge` request stores:
the post-efficiency energy clipped at the headroom. -/
def chargedAmt (b : Battery) (p t : ℚ) : ℚ :=
  min (b.charging_efficiency * (min p b.battery_power * t))
    (b.max_soc * b.battery_capacity - b.existing_energy)

/-- Closed form of the energy a nonnegative `discharge` request
removes: the post-efficiency deliverable clipped at the availability. -/
def dischargedAmt (b : Battery) (p t : ℚ) : ℚ :=
  min (min p b.battery_power * t * b.discharging_efficiency)
    (b.existing_energy - b.min_soc * b.battery_capacity)

/-! ### Closed forms of the two battery operations -/

/-- A nonnegative `charge` request never raises: it returns the tuple
`(min p P, chargedAmt, new energy, new soc)` and a state whose stored
energy grew by exactly `chargedAmt` and whose loss counter grew by the
pre-efficiency energy minus `chargedAmt`. -/
lemma charge_eq (b : Battery) (p t : ℚ) (hp : 0 ≤ p) :
    b.charge p t =
      (Except.ok (min p b.battery_power, chargedAmt b p t,
          b.existing_energy + chargedAmt b p t,
          (b.existing_energy + chargedAmt b p t) / b.battery_capacity),
       { b with
          existing_energy := b.existing_energy + chargedAmt b p t
          soc := (b.existing_energy + chargedAmt b p t) / b.battery_capacity
          total_charged := b.total_charged + chargedAmt b p t
          total_losses := b.total_losses + min p b.battery_power * t - chargedAmt b p t }) := by
  have hnp : ¬ p < 0 := not_lt.2 hp
  by_cases h : b.charging_efficiency * (min p b.battery_power * t) >
      b.max_soc * b.battery_capacity - b.existing_energy
  · simp [Battery.charge, chargedAmt, hnp, h, min_eq_right h.le]
  · simp [Battery.charge, chargedAmt, hnp, h, min_eq_left (not_lt.1 h)]

/-- A nonnegative `discharge` request never raises: it returns the
tuple `(min p P, dischargedAmt, new energy, new soc)` and a state whose
stored energy shrank by exactly `dischargedAmt` and whose loss counter
grew by the unclipped loss term. -/
lemma discharge_eq (b : Battery) (p t : ℚ) (hp : 0 ≤ p) :
    b.discharge p t =
      (Except.ok (min p b.battery_power, dischargedAmt b p t,
          b.existing_energy - dischargedAmt b p t,
          (b.existing_energy - dischargedAmt b p t) / b.battery_capacity),
       { b with
          existing_energy := b.existing_energy - dischargedAmt b p t
          soc := (b.existing_energy - dischargedAmt b p t) / b.battery_capacity
          total_discharged := b.total_discharged + dischargedAmt b p t
          total_losses := b.total_losses +
            min p b.battery_power * t * (1 - b.discharging_efficiency) }) := by
  have hnp : ¬ p < 0 := not_lt.2 hp
  by_cases h : min p b.battery_power * t * b.discharging_efficiency >
      b.existing_energy - b.min_soc * b.battery_capacity
  · simp [Battery.discharge, dischargedAmt, hnp, h, min_eq_right h.le]
  · simp [Battery.discharge, dischargedAmt, hnp, h, min_eq_left (not_lt.1 h)]

/-- `charge` never touches the constant configuration fields,
whether or not it raises. -/
lemma charge_const_fields (b : Battery) (p t : ℚ) :
    (b.charge p t).2.battery_capacity = b.battery_capacity ∧
    (b.charge p t).2.battery_power = b.battery_power ∧
    (b.charge p t).2.charging_efficiency = b.charging_efficiency ∧
    (b.charge p t).2.discharging_efficiency = b.discharging_efficiency ∧
    (b.charge p t).2.min_soc = b.min_soc ∧
    (b.charge p t).2.max_soc = b.max_soc := by
  by_cases hp : p < 0 <;> simp [Battery.charge, hp]

/-- `discharge` never touches the constant configuration fields. -/
lemma discharge_const_fields (b : Battery) (p t : ℚ) :
    (b.discharge p t).2.battery_capacity = b.battery_capacity ∧
    (b.discharge p t).2.battery_power = b.battery_power ∧
    (b.discharge p t).2.charging_efficiency = b.charging_efficiency ∧
    (b.discharge p t).2.discharging_efficiency = b.discharging_efficiency ∧
    (b.discharge p t).2.min_soc = b.min_soc ∧
    (b.discharge p t).2.max_soc = b.max_soc := by
  by_cases hp : p < 0 <;> simp [Battery.discharge, hp]

/-- The applied charge energy of a nonnegative request is `chargedAmt`. -/
lemma chargeApplied_eq (b : Battery) (p t : ℚ) (hp : 0 ≤ p) :
    chargeApplied b p t = chargedAmt b p t := by
  unfold chargeApplied
  rw [charge_eq b p t hp]

/-- The stored charge energy is nonnegative for a valid configuration,
a nonnegative request and a battery not above `max_soc`. -/
lemma chargedAmt_nonneg (b : Battery) (p t : ℚ) (hv : ValidConfig b)
    (hp : 0 ≤ p) (ht : 0 ≤ t)
    (hup : b.existing_energy ≤ b.max_soc * b.battery_capacity) :
    0 ≤ chargedAmt b p t := by
  obtain ⟨-, hP, hce, -, -, -, -, -, -⟩ := hv
  refine le_min (mul_nonneg hce.le (mul_nonneg (le_min hp hP.le) ht)) ?_
  exact sub_nonneg.2 hup

/-- The removed discharge energy is nonnegative for a valid
configuration, a nonnegative request and a battery not below
`min_soc`. -/
lemma dischargedAmt_nonneg (b : Battery) (p t : ℚ) (hv : ValidConfig b)
    (hp : 0 ≤ p) (ht : 0 ≤ t)
    (hlow : b.min_soc * b.battery_capacity ≤ b.existing_energy) :
    0 ≤ dischargedAmt b p t := by
  obtain ⟨-, hP, -, -, hde, -, -, -, -⟩ := hv
  refine le_min (mul_nonneg (mul_nonneg (le_min hp hP.le) ht) hde.le) ?_
  exact sub_nonneg.2 hlow

/-- With a one-hour duration and a valid configuration, the stored
charge energy never exceeds the requested power. -/
lemma chargedAmt_le_net (b : Battery) (net : ℚ) (hv : ValidConfig b)
    (hnet : 0 ≤ net) : chargedAmt b net 1 ≤ net := by
  obtain ⟨-, hP, hce, hce1, -, -, -, -, -⟩ := hv
  have h0 : 0 ≤ min net b.battery_power := le_min hnet hP.le
  calc chargedAmt b net 1
      ≤ b.charging_efficiency * (min net b.battery_power * 1) := min_le_left _ _
    _ = b.charging_efficiency * min net b.battery_power := by ring
    _ ≤ 1 * min net b.battery_power := mul_le_mul_of_nonneg_right hce1 h0
    _ = min net b.battery_power := one_mul _
    _ ≤ net := min_le_left _ _

/-- With a one-hour duration and a valid configuration, the delivered
discharge energy never exceeds the requested power. -/
lemma dischargedAmt_le_net (b : Battery) (net : ℚ) (hv : ValidConfig b)
    (hnet : 0 ≤ net) : dischargedAmt b net 1 ≤ net := by
  obtain ⟨-, hP, -, -, hde, hde1, -, -, -⟩ := hv
  have h0 : 0 ≤ min net b.battery_power := le_min hnet hP.le
  calc dischargedAmt b net 1
      ≤ min net b.battery_power * 1 * b.discharging_efficiency := min_le_left _ _
    _ = min net b.battery_power * b.discharging_efficiency := by ring
    _ ≤ min net b.battery_power * 1 := mul_le_mul_of_nonneg_left hde1 h0
    _ = min net b.battery_power := mul_one _
    _ ≤ net := min_le_left _ _

/-- Applying any request preserves the configuration bounds (the
constant fields are never written). -/
lemma validConfig_applyOp (b : Battery) (op : Op) (hv : ValidConfig b) :
    ValidConfig (applyOp b op) := by
  cases op with
  | charge p t =>
    obtain ⟨e1, e2, e3, e4, e5, e6⟩ := charge_const_fields b p t
    unfold ValidConfig at hv ⊢
    unfold applyOp
    rw [e1, e2, e3, e4, e5, e6]
    exact hv
  | discharge p t =>
    obtain ⟨e1, e2, e3, e4, e5, e6⟩ := discharge_const_fields b p t
    unfold ValidConfig at hv ⊢
    unfold applyOp
    rw [e1, e2, e3, e4, e5, e6]
    exact hv

/-- A nonnegative charge request keeps the stored energy inside the
usable band. -/
lemma charge_preserves_InBand (b : Battery) (p t : ℚ) (hv : ValidConfig b)
    (hband : InBand b) (hp : 0 ≤ p) (ht : 0 ≤ t) :
    InBand (b.charge p t).2 := by
  obtain ⟨h1, h2⟩ := hband
  have hamt0 : 0 ≤ chargedAmt b p t := chargedAmt_nonneg b p t hv hp ht h2
  have hamt1 : chargedAmt b p t ≤ b.max_soc * b.battery_capacity - b.existing_energy :=
    min_le_right _ _
  rw [charge_eq b p t hp]
  constructor
  · show b.min_soc * b.battery_capacity ≤ b.existing_energy + chargedAmt b p t
    linarith
  · show b.existing_energy + chargedAmt b p t ≤ b.max_soc * b.battery_capacity
    linarith

/-- A nonnegative discharge request keeps the stored energy inside the
usable band. -/
lemma discharge_preserves_InBand (b : Battery) (p t : ℚ) (hv : ValidConfig b)
    (hband : InBand b) (hp : 0 ≤ p) (ht : 0 ≤ t) :
    InBand (b.discharge p t).2 := by
  obtain ⟨h1, h2⟩ := hband
  have hamt0 : 0 ≤ dischargedAmt b p t := dischargedAmt_nonneg b p t hv hp ht h1
  have hamt1 : dischargedAmt b p t ≤ b.existing_energy - b.min_soc * b.battery_capacity :=
    min_le_right _ _
  rw [discharge_eq b p t hp]
  constructor
  · show b.min_soc * b.battery_capacity ≤ b.existing_energy - dischargedAmt b p t
    linarith
  · show b.existing_energy - dischargedAmt b p t ≤ b.max_soc * b.battery_capacity
    linarith

/-- One valid request preserves the usable band. -/
lemma applyOp_preserves_InBand (b : Battery) (op : Op) (hv : ValidConfig b)
    (hband : InBand b) (hop : op.valid) : InBand (applyOp b op) := by
  cases op with
  | charge p t => exact charge_preserves_InBand b p t hv hband hop.1 hop.2
  | discharge p t => exact discharge_preserves_InBand b p t hv hband hop.1 hop.2

/-- Claim C1: for every battery whose configuration satisfies the data
model's bounds and whose stored energy starts within the usable band,
and for every sequence of charge/discharge calls with nonnegative
requested power and nonnegative duration, the invariant
`min_soc*capacity ≤ stored_energy ≤ max_soc*capacity` holds after the
sequence — and hence after every call, since any prefix of a valid
sequence is itself a valid sequence. -/
theorem soc_band_invariant (b : Battery) (ops : List Op) (hv : ValidConfig b)
    (hband : InBand b) (hops : ∀ op ∈ ops, op.valid) :
    InBand (ops.foldl applyOp b) := by
  induction ops generalizing b with
  | nil => simpa using hband
  | cons op rest ih =>
    have hop : op.valid := hops op (List.mem_cons_self op rest)
    have hrest : ∀ o ∈ rest, o.valid := fun o ho => hops o (List.mem_cons_of_mem _ ho)
    rw [List.foldl_cons]
    exact ih (applyOp b op) (validConfig_applyOp b op hv)
      (applyOp_preserves_InBand b op hv hband hop) hrest

/-- Witness for C1 on the specification's own test scenario: a
100 kWh / 50 kW lossless battery at SOC 0.5 charged at 50 kW for an
hour (clipping at `max_soc`) and then discharged at 60 kW (clipping at
`min_soc`) stays within the band. -/
theorem soc_band_invariant_witness :
    InBand ([Op.charge 50 1, Op.discharge 60 1].foldl applyOp
      (mkBattery 100 50 (1/2) 1 1 (1/10) 1)) :=
  soc_band_invariant (mkBattery 100 50 (1/2) 1 1 (1/10) 1)
    [Op.charge 50 1, Op.discharge 60 1] (by decide) (by decide) (by decide)

/-- Claim C10: a charge or discharge call with negative requested power
raises `InvalidInput` before any assignment to the object, so the
battery state — stored energy, SOC and all three cumulative counters —
is exactly the state before the call. -/
theorem negative_power_error_atomicity (b : Battery) (p t : ℚ) (hp : p < 0) :
    b.charge p t = (Except.error PyErr.valueError, b) ∧
    b.discharge p t = (Except.error PyErr.valueError, b) := by
  constructor <;> simp [Battery.charge, Battery.discharge, hp]

/-- Witness for C10 at requested power `-1` on the default battery. -/
theorem negative_power_error_atomicity_witness :
    defaultBattery.charge (-1) 1 = (Except.error PyErr.valueError, defaultBattery) ∧
    defaultBattery.discharge (-1) 1 = (Except.error PyErr.valueError, defaultBattery) :=
  negative_power_error_atomicity defaultBattery (-1) 1 (by decide)

/-- Claim C7: a discharge call with nonnegative requested power and any
duration increases the loss counter by exactly
`min(requested, power_limit) * duration * (1 - discharging_efficiency)`,
independent of whether the delivered energy was clipped by
availability. -/
theorem discharge_losses_exact (b : Battery) (p t : ℚ) (hp : 0 ≤ p) :
    (b.discharge p t).2.total_losses =
      b.total_losses + min p b.battery_power * t * (1 - b.discharging_efficiency) := by
  rw [discharge_eq b p t hp]

/-- Witness for C7: discharging the default battery at 60 kW for one
hour. -/
theorem discharge_losses_exact_witness :
    (defaultBattery.discharge 60 1).2.total_losses =
      defaultBattery.total_losses +
        min 60 defaultBattery.battery_power * 1 * (1 - defaultBattery.discharging_efficiency) :=
  discharge_losses_exact defaultBattery 60 1 (by decide)

/-- Counterexample to claim C5: a charge and a discharge call with a
negative duration (`-1` hours) succeed instead of failing with
`InvalidInput` — only the power argument is checked. -/
theorem negative_duration_not_rejected :
    (defaultBattery.charge 5 (-1)).1 = Except.ok (5, -19/4, 7981/4, 7981/16000) ∧
    (defaultBattery.discharge 5 (-1)).1 = Except.ok (5, -19/4, 8019/4, 8019/16000) :=
  ⟨by rfl, by rfl⟩

/-- Claim C5 (amended): a charge/discharge call fails with
`InvalidInput` exactly when the requested power is negative; the
duration argument is never checked, and calls with nonnegative power
succeed for any duration. -/
theorem negative_power_only_rejected (b : Battery) (p t : ℚ) :
    ((b.charge p t).1 = Except.error PyErr.valueError ↔ p < 0) ∧
    ((b.discharge p t).1 = Except.error PyErr.valueError ↔ p < 0) := by
  by_cases hp : p < 0 <;> simp [Battery.charge, Battery.discharge, hp]

/-- Witness for amended C5 at power 5 and duration `-1`. -/
theorem negative_power_only_rejected_witness :
    ((defaultBattery.charge 5 (-1)).1 = Except.error PyErr.valueError ↔ (5:ℚ) < 0) ∧
    ((defaultBattery.discharge 5 (-1)).1 = Except.error PyErr.valueError ↔ (5:ℚ) < 0) :=
  negative_power_only_rejected defaultBattery 5 (-1)

/-- Counterexample to claim C6: requesting 3000 kW from the default
battery (power limit 2000 kW, headroom 2000 kWh) stores
`0.95*2000 = 1900` kWh.  The post-efficiency energy (1900) does not
exceed the headroom, so no headroom clipping occurred, yet the applied
energy differs from `requested_power*duration*charging_efficiency
= 2850`: the power-limit clip already breaks the claimed equality. -/
theorem power_limit_clip_breaks_charge_equality :
    chargeApplied defaultBattery 3000 1 = 1900 ∧
    chargeApplied defaultBattery 3000 1 ≠ 3000 * 1 * defaultBattery.charging_efficiency ∧
    defaultBattery.charging_efficiency * (min 3000 defaultBattery.battery_power * 1) ≤
      defaultBattery.max_soc * defaultBattery.battery_capacity -
        defaultBattery.existing_energy :=
  ⟨by rfl, by decide, by decide⟩

/-- Claim C6 (amended): for a valid configuration and a nonnegative
request, the applied charge energy is at most
`requested_power*duration*charging_efficiency`, with equality whenever
neither the power limit nor the headroom clipped the request. -/
theorem charge_energy_bound (b : Battery) (p t : ℚ) (hv : ValidConfig b)
    (hp : 0 ≤ p) (ht : 0 ≤ t) :
    chargeApplied b p t ≤ p * t * b.charging_efficiency ∧
    (p ≤ b.battery_power →
      b.charging_efficiency * (p * t) ≤
        b.max_soc * b.battery_capacity - b.existing_energy →
      chargeApplied b p t = p * t * b.charging_efficiency) := by
  obtain ⟨-, hP, hce, hce1, -, -, -, -, -⟩ := hv
  rw [chargeApplied_eq b p t hp]
  constructor
  · have h1 : min p b.battery_power ≤ p := min_le_left _ _
    calc chargedAmt b p t
        ≤ b.charging_efficiency * (min p b.battery_power * t) := min_le_left _ _
      _ ≤ b.charging_efficiency * (p * t) := by
          apply mul_le_mul_of_nonneg_left _ hce.le
          exact mul_le_mul_of_nonneg_right h1 ht
      _ = p * t * b.charging_efficiency := by ring
  · intro hpow hclip
    unfold chargedAmt
    rw [min_eq_left hpow, min_eq_left hclip]
    ring

/-- Witness for amended C6: a 10 kW request on the default battery is
clipped by neither the power limit nor the headroom. -/
theorem charge_energy_bound_witness :
    chargeApplied defaultBattery 10 1 ≤ 10 * 1 * defaultBattery.charging_efficiency ∧
    ((10:ℚ) ≤ defaultBattery.battery_power →
      defaultBattery.charging_efficiency * (10 * 1) ≤
        defaultBattery.max_soc * defaultBattery.battery_capacity -
          defaultBattery.existing_energy →
      chargeApplied defaultBattery 10 1 = 10 * 1 * defaultBattery.charging_efficiency) :=
  charge_energy_bound defaultBattery 10 1 (by decide) (by decide) (by decide)

/-- Every successful hour records `electricity_cost = grid_power *
price`, in every strategy branch (line 155 runs after the branch). -/
lemma simStep_cost (strategy : Strategy) (pricesAll : List ℚ) (b : Battery)
    (pv demand price : ℚ) (r : HourRec) (b' : Battery)
    (h : simStep strategy pricesAll b pv demand price = Except.ok (r, b')) :
    r.electricity_cost = r.grid_power * price := by
  simp only [simStep] at h
  cases hbr : simBranch strategy pricesAll b (pv - demand) price with
  | error e =>
    rw [hbr] at h
    exact absurd h (by simp)
  | ok res =>
    obtain ⟨vals, b2⟩ := res
    rw [hbr] at h
    simp only [Except.ok.injEq, Prod.mk.injEq] at h
    obtain ⟨hr, -⟩ := h
    rw [← hr]

/-- In the simple strategy the recorded grid power is nonnegative on
surplus hours (export) and nonpositive on deficit hours (import). -/
lemma simple_branch_grid_sign (pricesAll : List ℚ) (b : Battery) (net price : ℚ)
    (vals : ℚ × ℚ × ℚ × ℚ) (b2 : Battery) (hv : ValidConfig b)
    (hbr : simBranch .simple pricesAll b net price = Except.ok (vals, b2)) :
    (0 < net → 0 ≤ vals.2.2.2) ∧ (net ≤ 0 → vals.2.2.2 ≤ 0) := by
  simp only [simBranch] at hbr
  by_cases hnet : net > 0
  · rw [if_pos hnet, charge_eq b net 1 hnet.le] at hbr
    simp only [Except.ok.injEq, Prod.mk.injEq] at hbr
    obtain ⟨hvals, -⟩ := hbr
    have hle : chargedAmt b net 1 ≤ net := chargedAmt_le_net b net hv hnet.le
    rw [← hvals]
    constructor
    · intro _
      show (0:ℚ) ≤ net - chargedAmt b net 1
      linarith
    · intro h0
      exact absurd h0 (not_le.2 hnet)
  · have hnet' : (0:ℚ) ≤ -net := by
      have := not_lt.1 hnet
      linarith
    rw [if_neg hnet, discharge_eq b (-net) 1 hnet'] at hbr
    simp only [Except.ok.injEq, Prod.mk.injEq] at hbr
    obtain ⟨hvals, -⟩ := hbr
    have hle : dischargedAmt b (-net) 1 ≤ -net :=
      dischargedAmt_le_net b (-net) hv hnet'
    rw [← hvals]
    constructor
    · intro h0
      exact absurd h0 hnet
    · intro _
      show net + dischargedAmt b (-net) 1 ≤ 0
      linarith

/-- Claim C9 (amended): for every hour a strategy records, the cost is
exactly `grid_power * price`; the sign convention, exhibited on the
simple strategy, is positive = export (surplus hours) and negative
= import (deficit hours), so an importing hour at a positive price
yields a negative recorded cost. -/
theorem cost_is_grid_times_price (strategy : Strategy) (pricesAll : List ℚ)
    (b : Battery) (pv demand price : ℚ) (r : HourRec) (b' : Battery)
    (h : simStep strategy pricesAll b pv demand price = Except.ok (r, b'))
    (hv : ValidConfig b) :
    r.electricity_cost = r.grid_power * price ∧
    (strategy = .simple →
      (0 < pv - demand → 0 ≤ r.grid_power) ∧
      (pv - demand ≤ 0 → r.grid_power ≤ 0)) := by
  refine ⟨simStep_cost strategy pricesAll b pv demand price r b' h, ?_⟩
  intro hs
  subst hs
  simp only [simStep] at h
  cases hbr : simBranch .simple pricesAll b (pv - demand) price with
  | error e =>
    rw [hbr] at h
    exact absurd h (by simp)
  | ok res =>
    obtain ⟨vals, b2⟩ := res
    rw [hbr] at h
    simp only [Except.ok.injEq, Prod.mk.injEq] at h
    obtain ⟨hr, -⟩ := h
    have hsign := simple_branch_grid_sign pricesAll b (pv - demand) price vals b2 hv hbr
    rw [← hr]
    exact hsign

/-- The result row of the witness hour for amended C9. -/
def gridCostRec : HourRec :=
  { pv_generation := 0, building_demand := 5, electricity_prices := 2,
    energy_movement := -19/4, battery_soc := 7981/16000, battery_energy := 7981/4,
    grid_power := -1/4, electricity_cost := -1/2 }

/-- The post-hour battery of the witness hour for amended C9. -/
def gridCostBat : Battery :=
  { defaultBattery with
    existing_energy := 7981/4, soc := 7981/16000,
    total_discharged := 19/4, total_losses := 1/4 }

/-- Witness for amended C9: one simple-strategy deficit hour on the
default battery (pv 0, demand 5, price 2). -/
theorem cost_is_grid_times_price_witness :
    gridCostRec.electricity_cost = gridCostRec.grid_power * 2 ∧
    (Strategy.simple = Strategy.simple →
      (0 < (0:ℚ) - 5 → 0 ≤ gridCostRec.grid_power) ∧
      ((0:ℚ) - 5 ≤ 0 → gridCostRec.grid_power ≤ 0)) :=
  cost_is_grid_times_price .simple [2] defaultBattery 0 5 2 gridCostRec gridCostBat
    (by rfl) (by decide)

/-- Counterexample to claim C9: an hour that imports from the grid
(pv 0, demand 5, battery already at `min_soc` so it delivers nothing)
records `grid_power = -5` and cost `-10` at price 2 — an import is
recorded with a negative cost, refuting the import-positive
convention. -/
theorem import_hour_negative_cost :
    run_simulation (mkBattery 4000 2000 (1/10) (19/20) (19/20) (1/10) 1) [0] [5] [2]
        Strategy.simple =
      Except.ok [{ pv_generation := 0, building_demand := 5, electricity_prices := 2,
                   energy_movement := 0, battery_soc := 1/10, battery_energy := 400,
                   grid_power := -5, electricity_cost := -10 }] ∧
    (-10 : ℚ) < 0 :=
  ⟨by rfl, by decide⟩

/-- Claim C2 (code bug): one simple-strategy surplus hour on the
default battery (pv 100, demand 0, charging efficiency 0.95, no
clipping).  The code records `energy_movement = 95` (post-efficiency)
and settles the grid with `grid_power = net_load - 95 = 5`, so the
5 kWh charging loss is exported to the grid: the claimed reconciliation
`net_load = energy_movement_pre_efficiency_equivalent + grid_power`
fails, since the pre-efficiency equivalent of the recorded movement is
`95 / 0.95 = 100` and `100 ≠ 100 + 5`. -/
theorem charging_loss_leaks_to_grid :
    run_simulation defaultBattery [100] [0] [1] Strategy.simple =
      Except.ok [{ pv_generation := 100, building_demand := 0, electricity_prices := 1,
                   energy_movement := 95, battery_soc := 419/800, battery_energy := 2095,
                   grid_power := 5, electricity_cost := 5 }] ∧
    (100 : ℚ) - 0 ≠ 95 / (19/20) + 5 :=
  ⟨by rfl, by decide⟩

/-- Claim C3 (code bug): under the price-arbitrage strategy any
low-price hour aborts the whole run — after mutating the battery, the
code assigns the entire 4-tuple returned by `charge` into the numeric
`energy_movement` array (the `[1]` index is missing), raising a type
error.  Here: a single hour with price 1 (equal to its own 25th
percentile), pv = demand = 0, so the code attempts to charge at full
rated power from the grid and then crashes. -/
theorem arbitrage_low_price_hour_crashes :
    run_simulation defaultBattery [0] [0] [1] Strategy.priceArbitrage =
      Except.error PyErr.typeError := by
  rfl

/-- Claim C8 (code bug): a medium-price deficit hour under price
arbitrage (price 5 strictly between the percentile thresholds 2.5 and
7.5 of the series [5, 0, 10], pv 0, demand 5).  The medium-price branch
passes the raw (negative) net load to `discharge` — the sign flip of
the baseline branch is missing — so the call raises `InvalidInput` and
the run aborts, while the baseline strategy on the same battery state
completes the hour, discharging 4.75 kWh and importing 0.25 kW. -/
theorem medium_price_deficit_hour_crashes :
    simStep Strategy.priceArbitrage [5, 0, 10] defaultBattery 0 5 5 =
      Except.error PyErr.valueError ∧
    simStep Strategy.simple [5, 0, 10] defaultBattery 0 5 5 =
      Except.ok ({ pv_generation := 0, building_demand := 5, electricity_prices := 5,
                   energy_movement := -19/4, battery_soc := 7981/16000,
                   battery_energy := 7981/4, grid_power := -1/4,
                   electricity_cost := -5/4 },
                 { defaultBattery with
                   existing_energy := 7981/4, soc := 7981/16000,
                   total_discharged := 19/4, total_losses := 1/4 }) :=
  ⟨by rfl, by rfl⟩

/-- Counterexample to claim C4: constructing a battery with
`capacity = -1 ≤ 0`, `power = -2 ≤ 0`, efficiencies `3 ∉ (0,1]` and
`min_soc = 9/10 ≥ max_soc = 1/10` succeeds and produces an instance —
no validation occurs and no error is raised. -/
theorem construction_accepts_invalid_config :
    mkBattery (-1) (-2) (1/2) 3 3 (9/10) (1/10) =
      { battery_capacity := -1, battery_power := -2, charging_efficiency := 3,
        discharging_efficiency := 3, min_soc := 9/10, max_soc := 1/10,
        existing_energy := -1/2, soc := 1/2, total_charged := 0,
        total_discharged := 0, total_losses := 0 } := by
  rfl

/-- Claim C4 (amended): battery construction performs no validation —
even when the parameters violate the documented bounds (`min_soc ≥
max_soc`, an efficiency outside `(0,1]`, or capacity/power `≤ 0`),
construction succeeds and produces an instance recording exactly the
supplied parameters. -/
theorem construction_never_validates (c p i ce de mn mx : ℚ)
    (hinvalid : mx ≤ mn ∨ ce ≤ 0 ∨ 1 < ce ∨ de ≤ 0 ∨ 1 < de ∨ c ≤ 0 ∨ p ≤ 0) :
    mkBattery c p i ce de mn mx =
      { battery_capacity := c, battery_power := p, charging_efficiency := ce,
        discharging_efficiency := de, min_soc := mn, max_soc := mx,
        existing_energy := i * c, soc := i, total_charged := 0,
        total_discharged := 0, total_losses := 0 } :=
  rfl

/-- Witness for amended C4: an invalid charging efficiency of 3 is
accepted verbatim. -/
theorem construction_never_validates_witness :
    mkBattery 100 50 0 3 1 0 1 =
      { battery_capacity := 100, battery_power := 50, charging_efficiency := 3,
        discharging_efficiency := 1, min_soc := 0, max_soc := 1,
        existing_energy := 0 * 100, soc := 0, total_charged := 0,
        total_discharged := 0, total_losses := 0 } :=
  construction_never_validates 100 50 0 3 1 0 1 (by decide)
